import Mathlib

/-!
Verification development for the magicfish mesh-conversion code.

The embedding covers:
* `convertGlbToStl` (src/lib/stl-utils.ts): wraps the loaded glTF scene in a
  fresh scene, repaints every mesh with one white `MeshStandardMaterial`, and
  serializes with three.js `STLExporter.parse(scene, { binary: true })`.
  The loader/exporter bodies live in the three.js library that the file
  imports; they are embedded here following the library's algorithm
  (preorder traversal, world-matrix application, face normal from the cross
  product, 80-byte header + uint32 count + 50 bytes per triangle).
* the `convert-to-stl` API route (src/app/api/convert-to-stl/route.ts).
* the polling branch of `pollTaskStatus` (src/components/model-generator.tsx).

All float arithmetic of the source is embedded exactly over `ℚ`; the byte
serialization uses a genuine IEEE-754 binary32 encoder over `ℚ`.
-/

namespace MagicFish

/-- A 3-component vector, as three.js `Vector3`; coordinates embedded in ℚ. -/
structure Vec3 where
  x : ℚ
  y : ℚ
  z : ℚ
deriving DecidableEq, Repr

/-- A 4×4 matrix, as three.js `Matrix4` (fields named row-major like
`Matrix4.set`; three.js stores them column-major in `elements`). -/
structure Mat4 where
  n11 : ℚ
  n12 : ℚ
  n13 : ℚ
  n14 : ℚ
  n21 : ℚ
  n22 : ℚ
  n23 : ℚ
  n24 : ℚ
  n31 : ℚ
  n32 : ℚ
  n33 : ℚ
  n34 : ℚ
  n41 : ℚ
  n42 : ℚ
  n43 : ℚ
  n44 : ℚ
deriving DecidableEq, Repr

/-- The identity matrix (`Matrix4.identity`). -/
def Mat4.identity : Mat4 :=
  ⟨1, 0, 0, 0,
   0, 1, 0, 0,
   0, 0, 1, 0,
   0, 0, 0, 1⟩

/-- Matrix product, as three.js `Matrix4.multiplyMatrices(A, B)`. -/
def Mat4.mul (A B : Mat4) : Mat4 where
  n11 := A.n11 * B.n11 + A.n12 * B.n21 + A.n13 * B.n31 + A.n14 * B.n41
  n12 := A.n11 * B.n12 + A.n12 * B.n22 + A.n13 * B.n32 + A.n14 * B.n42
  n13 := A.n11 * B.n13 + A.n12 * B.n23 + A.n13 * B.n33 + A.n14 * B.n43
  n14 := A.n11 * B.n14 + A.n12 * B.n24 + A.n13 * B.n34 + A.n14 * B.n44
  n21 := A.n21 * B.n11 + A.n22 * B.n21 + A.n23 * B.n31 + A.n24 * B.n41
  n22 := A.n21 * B.n12 + A.n22 * B.n22 + A.n23 * B.n32 + A.n24 * B.n42
  n23 := A.n21 * B.n13 + A.n22 * B.n23 + A.n23 * B.n33 + A.n24 * B.n43
  n24 := A.n21 * B.n14 + A.n22 * B.n24 + A.n23 * B.n34 + A.n24 * B.n44
  n31 := A.n31 * B.n11 + A.n32 * B.n21 + A.n33 * B.n31 + A.n34 * B.n41
  n32 := A.n31 * B.n12 + A.n32 * B.n22 + A.n33 * B.n32 + A.n34 * B.n42
  n33 := A.n31 * B.n13 + A.n32 * B.n23 + A.n33 * B.n33 + A.n34 * B.n43
  n34 := A.n31 * B.n14 + A.n32 * B.n24 + A.n33 * B.n34 + A.n34 * B.n44
  n41 := A.n41 * B.n11 + A.n42 * B.n21 + A.n43 * B.n31 + A.n44 * B.n41
  n42 := A.n41 * B.n12 + A.n42 * B.n22 + A.n43 * B.n32 + A.n44 * B.n42
  n43 := A.n41 * B.n13 + A.n42 * B.n23 + A.n43 * B.n33 + A.n44 * B.n43
  n44 := A.n41 * B.n14 + A.n42 * B.n24 + A.n43 * B.n34 + A.n44 * B.n44

/-- Apply a 4×4 matrix to a point, as three.js `Vector3.applyMatrix4`
(homogeneous transform with perspective divide; `w` is 1 for the affine
matrices produced by glTF nodes, so the ℚ convention `1/0 = 0` is never
exercised on the scenes the claims quantify over). -/
def Vec3.applyMatrix4 (v : Vec3) (m : Mat4) : Vec3 :=
  let w : ℚ := 1 / (m.n41 * v.x + m.n42 * v.y + m.n43 * v.z + m.n44)
  ⟨(m.n11 * v.x + m.n12 * v.y + m.n13 * v.z + m.n14) * w,
   (m.n21 * v.x + m.n22 * v.y + m.n23 * v.z + m.n24) * w,
   (m.n31 * v.x + m.n32 * v.y + m.n33 * v.z + m.n34) * w⟩

/-- Vector subtraction (`Vector3.subVectors`). -/
def Vec3.sub (a b : Vec3) : Vec3 :=
  ⟨a.x - b.x, a.y - b.y, a.z - b.z⟩

/-- Cross product (`Vector3.cross`). -/
def Vec3.cross (a b : Vec3) : Vec3 :=
  ⟨a.y * b.z - a.z * b.y, a.z * b.x - a.x * b.z, a.x * b.y - a.y * b.x⟩

/-- Largest natural `r` with `r * r ≤ n` (structural-recursion square root,
so the kernel can evaluate it on witnesses). -/
def sqrtLinear (n : ℕ) : ℕ :=
  (List.range (n + 1)).foldl (fun acc k => if k * k ≤ n then k else acc) 0

/-- Exact square root of a nonnegative rational, when it is rational: a
reduced fraction has a rational square root iff numerator and denominator
are perfect squares. -/
def ratSqrt (q : ℚ) : Option ℚ :=
  if q < 0 then none
  else
    let sn := sqrtLinear q.num.toNat
    let sd := sqrtLinear q.den
    if sn * sn = q.num.toNat ∧ sd * sd = q.den then some ((sn : ℚ) / (sd : ℚ))
    else none

/-- Normalization, as three.js `Vector3.normalize` which divides by
`length || 1` (so the zero vector is returned unchanged). When the exact
length is irrational it is not representable in ℚ and the vector is
returned unscaled; no claim in this development evaluates that case. -/
def Vec3.normalize (v : Vec3) : Vec3 :=
  match ratSqrt (v.x * v.x + v.y * v.y + v.z * v.z) with
  | some L => if L = 0 then v else ⟨v.x / L, v.y / L, v.z / L⟩
  | none => v

/-- A material as built by `new THREE.MeshStandardMaterial({...})`:
`color`, `roughness`, `metalness`, and an optional texture map reference
(`map`, absent when the constructor options carry none). -/
structure Material where
  color : ℕ
  roughness : ℚ
  metalness : ℚ
  map : Option ℕ
deriving DecidableEq, Repr

/-- The material assigned to every mesh in `convertGlbToStl`:
`new THREE.MeshStandardMaterial({ color: 0xffffff, roughness: 0.3,
metalness: 0.1 })` — white, textureless. -/
def canonicalMaterial : Material :=
  { color := 0xffffff, roughness := 3/10, metalness := 1/10, map := none }

/-- Mesh geometry as a three.js `BufferGeometry`: a position attribute, an
optional normal attribute, and an optional index. -/
structure MeshGeometry where
  positions : List Vec3
  normals : Option (List Vec3)
  index : Option (List ℕ)
deriving DecidableEq, Repr

/-- A scene-graph object (`THREE.Object3D`): local matrix, optional mesh
geometry (`some` exactly when the object is a `THREE.Mesh`), optional
material, and children in declaration order. -/
inductive Object3D where
  | node : Mat4 → Option MeshGeometry → Option Material → List Object3D → Object3D

/-- Local matrix of an object. -/
def Object3D.localMatrix : Object3D → Mat4
  | .node m _ _ _ => m

/-- Geometry of an object (`some` iff it is a mesh). -/
def Object3D.geomOf : Object3D → Option MeshGeometry
  | .node _ g _ _ => g

/-- Material of an object. -/
def Object3D.matOf : Object3D → Option Material
  | .node _ _ mat _ => mat

/-- Children of an object. -/
def Object3D.childrenOf : Object3D → List Object3D
  | .node _ _ _ cs => cs

mutual

/-- The material-normalization pass of `convertGlbToStl`:
`gltf.scene.traverse(child => { if (child instanceof THREE.Mesh)
child.material = new THREE.MeshStandardMaterial({ color: 0xffffff,
roughness: 0.3, metalness: 0.1 }) })`. Only mesh objects are touched. -/
def normalizeObject : Object3D → Object3D
  | .node m g mat cs =>
      .node m g (if g.isSome then some canonicalMaterial else mat) (normalizeList cs)

/-- `normalizeObject` mapped over a child list. -/
def normalizeList : List Object3D → List Object3D
  | [] => []
  | c :: cs => normalizeObject c :: normalizeList cs

end

mutual

/-- Whether any mesh-bearing object is reachable from this object. -/
def hasMeshNode : Object3D → Bool
  | .node _ g _ cs => g.isSome || hasMeshNodeList cs

/-- `hasMeshNode` over a child list. -/
def hasMeshNodeList : List Object3D → Bool
  | [] => false
  | c :: cs => hasMeshNode c || hasMeshNodeList cs

end

mutual

/-- Erase every material in the scene graph, keeping matrices, geometry and
hierarchy; two graphs agree on everything but materials iff their erasures
are equal. -/
def stripMaterial : Object3D → Object3D
  | .node m g _ cs => .node m g none (stripMaterialList cs)

/-- `stripMaterial` over a child list. -/
def stripMaterialList : List Object3D → List Object3D
  | [] => []
  | c :: cs => stripMaterial c :: stripMaterialList cs

end

mutual

/-- Every object in the graph (the object itself and all descendants)
satisfies `p` — the reach of `Object3D.traverse`. -/
def AllNodes (p : Object3D → Prop) : Object3D → Prop
  | .node m g mat cs => p (.node m g mat cs) ∧ AllNodesList p cs

/-- `AllNodes` over a child list. -/
def AllNodesList (p : Object3D → Prop) : List Object3D → Prop
  | [] => True
  | c :: cs => AllNodes p c ∧ AllNodesList p cs

end

/-- Triangle count contributed by one geometry, as counted by
`STLExporter.parse`: `index !== null ? index.count / 3 :
positionAttribute.count / 3`. -/
def geomTriCount (g : MeshGeometry) : ℕ :=
  match g.index with
  | some idx => idx.length / 3
  | none => g.positions.length / 3

mutual

/-- Total index-triple count over all mesh-bearing objects of a graph. -/
def totalTriples : Object3D → ℕ
  | .node _ g _ cs =>
      (match g with | some geo => geomTriCount geo | none => 0) + totalTriplesList cs

/-- `totalTriples` over a child list. -/
def totalTriplesList : List Object3D → ℕ
  | [] => 0
  | c :: cs => totalTriples c + totalTriplesList cs

end

/-- A mesh picked up by the exporter's traversal, with the world matrix the
exporter applies to its vertices (`object.matrixWorld`, the product of the
ancestors' local matrices with the object's own). -/
structure ExportEntry where
  world : Mat4
  geom : MeshGeometry
deriving DecidableEq

mutual

/-- Preorder collection of mesh objects, as `scene.traverse` in
`STLExporter.parse`: the object itself first, then its children in order;
the world matrix accumulates parent-to-child. -/
def collectMeshes (parentWorld : Mat4) : Object3D → List ExportEntry
  | .node m g _ cs =>
      let w := parentWorld.mul m
      (match g with | some geo => [⟨w, geo⟩] | none => []) ++ collectMeshesList w cs

/-- `collectMeshes` over a child list. -/
def collectMeshesList (w : Mat4) : List Object3D → List ExportEntry
  | [] => []
  | c :: cs => collectMeshes w c ++ collectMeshesList w cs

end

/-- One output triangle: face normal and the three world-space vertices. -/
structure STLTri where
  normal : Vec3
  va : Vec3
  vb : Vec3
  vc : Vec3
deriving DecidableEq, Repr

/-- Split a flat index list into consecutive triples, as the exporter's
`for (j = 0; j < count; j += 3)` loop reads indices `j, j+1, j+2`. -/
def chunk3 : List ℕ → List (ℕ × ℕ × ℕ)
  | a :: b :: c :: rest => (a, b, c) :: chunk3 rest
  | _ => []

/-- Index triples of one geometry: the index buffer's triples when indexed,
else consecutive position triples (`a = j, b = j+1, c = j+2`). -/
def triIndices (g : MeshGeometry) : List (ℕ × ℕ × ℕ) :=
  match g.index with
  | some idx => chunk3 idx
  | none => chunk3 (List.range g.positions.length)

/-- `writeFace` of `STLExporter`: read the three positions, transform them
by the object's world matrix, and compute the face normal as
`cb.subVectors(vC, vB); ab.subVectors(vA, vB); cb.cross(ab).normalize()`.
Stored vertex normals are never consulted by the exporter. -/
def writeFace (world : Mat4) (positions : List Vec3) (abc : ℕ × ℕ × ℕ) : STLTri :=
  let vA := (positions.getD abc.1 ⟨0, 0, 0⟩).applyMatrix4 world
  let vB := (positions.getD abc.2.1 ⟨0, 0, 0⟩).applyMatrix4 world
  let vC := (positions.getD abc.2.2 ⟨0, 0, 0⟩).applyMatrix4 world
  { normal := Vec3.normalize ((vC.sub vB).cross (vA.sub vB)),
    va := vA, vb := vB, vc := vC }

/-- Triangles written for one collected mesh. -/
def entryTriangles (e : ExportEntry) : List STLTri :=
  (triIndices e.geom).map (writeFace e.world e.geom.positions)

/-- Triangle count the exporter writes into the header field. -/
def exporterTriangleCount (root : Object3D) : ℕ :=
  ((collectMeshes Mat4.identity root).map (fun e => geomTriCount e.geom)).sum

/-- All triangles the exporter emits, in traversal order. -/
def exporterTriangles (root : Object3D) : List STLTri :=
  ((collectMeshes Mat4.identity root).map entryTriangles).flatten

/-- Little-endian uint32 bytes, as `DataView.setUint32(_, n, true)` (which
wraps modulo 2^32). -/
def u32le (n : ℕ) : List ℕ :=
  [n % 256, n / 256 % 256, n / 256 ^ 2 % 256, n / 256 ^ 3 % 256]

/-- Little-endian uint16 bytes, as `DataView.setUint16(_, n, true)`. -/
def u16le (n : ℕ) : List ℕ :=
  [n % 256, n / 256 % 256]

/-- Decode 4 little-endian bytes into the unsigned integer they denote. -/
def decodeU32le : List ℕ → ℕ
  | [b0, b1, b2, b3] => b0 + 256 * b1 + 256 ^ 2 * b2 + 256 ^ 3 * b3
  | _ => 0

/-- Round a rational to the nearest integer, ties to even (IEEE 754
default rounding). -/
def rne (q : ℚ) : ℤ :=
  let f := ⌊q⌋
  let r := q - (f : ℚ)
  if r < 1/2 then f
  else if 1/2 < r then f + 1
  else if f % 2 = 0 then f else f + 1

/-- Number of times `a` can be halved before dropping below 2, capped by the
fuel: for `1 ≤ a` and enough fuel this is `⌊log₂ a⌋`. Structural recursion
on the fuel keeps it kernel-evaluable. -/
def log2fuel : ℕ → ℚ → ℕ
  | 0, _ => 0
  | fuel + 1, a => if 2 ≤ a then log2fuel fuel (a / 2) + 1 else 0

/-- Floor of log₂ for a positive rational, valid for `2^(-300) ≤ a < 2^300`
(outside that range the encoder's underflow/overflow branches make the
value irrelevant). -/
def floorLog2 (a : ℚ) : ℤ :=
  (log2fuel 600 (a * 2 ^ (300 : ℕ)) : ℤ) - 300

/-- IEEE 754 binary32 bit pattern of a rational, round to nearest, ties to
even — the value `DataView.setFloat32(_, q, true)` stores. -/
def f32bits (q : ℚ) : ℕ :=
  if q = 0 then 0
  else
    let s : ℕ := if q < 0 then 2 ^ 31 else 0
    let a : ℚ := |q|
    let e : ℤ := floorLog2 a
    if 128 ≤ e then s + 0x7f800000
    else if e < -126 then
      -- subnormal range: significand in units of 2^(-149); a carry into
      -- 2^23 lands exactly on the smallest normal encoding
      s + (rne (a * 2 ^ (149 : ℕ))).toNat
    else
      let scaled : ℚ :=
        if (23 : ℤ) - e ≥ 0 then a * 2 ^ ((23 - e).toNat)
        else a / 2 ^ ((e - 23).toNat)
      let m : ℕ := (rne scaled).toNat
      if m = 2 ^ 24 then
        if (127 : ℤ) ≤ e then s + 0x7f800000
        else s + ((e + 1 + 127).toNat) * 2 ^ 23
      else s + ((e + 127).toNat) * 2 ^ 23 + (m - 2 ^ 23)

/-- Little-endian float32 bytes of a rational. -/
def f32le (q : ℚ) : List ℕ :=
  u32le (f32bits q)

/-- The 50 bytes `STLExporter` writes per triangle: normal (3 float32),
three vertices (9 float32), and a zero uint16 attribute byte count. -/
def triBytes (t : STLTri) : List ℕ :=
  f32le t.normal.x ++ f32le t.normal.y ++ f32le t.normal.z ++
  f32le t.va.x ++ f32le t.va.y ++ f32le t.va.z ++
  f32le t.vb.x ++ f32le t.vb.y ++ f32le t.vb.z ++
  f32le t.vc.x ++ f32le t.vc.y ++ f32le t.vc.z ++
  u16le 0

/-- Binary output of `STLExporter.parse(root, { binary: true })`: a zeroed
80-byte header (the `ArrayBuffer` of size `triangles*2 + triangles*3*4*4 +
80 + 4` is allocated zero-filled and the header is never written), the
little-endian uint32 triangle count at offset 80, then 50 bytes per
triangle in traversal order. -/
def parseBinarySTL (root : Object3D) : List ℕ :=
  List.replicate 80 0 ++ u32le (exporterTriangleCount root) ++
    ((exporterTriangles root).map triBytes).flatten

/-- Outcome of `GLTFLoader.load`: either the parsed `gltf.scene` handed to
the success callback, or the error value handed to the error callback. -/
inductive LoadResult where
  | success : Object3D → LoadResult
  | failure : String → LoadResult

/-- Outcome of the promise returned by `convertGlbToStl`. -/
inductive ConvResult where
  | resolved : List ℕ → ConvResult
  | rejected : String → ConvResult
deriving DecidableEq, Repr

/-- Constructor tag of a conversion outcome — the only "kind" information
the promise carries. -/
def ConvResult.kind : ConvResult → String
  | .resolved _ => "resolved"
  | .rejected _ => "rejected"

/-- The scene `convertGlbToStl` hands to the exporter: a fresh
`THREE.Scene` (identity transform, no mesh) whose only child is the loaded
`gltf.scene` after the material-normalization traversal. -/
def pipelineScene (gltfScene : Object3D) : Object3D :=
  .node Mat4.identity none none [normalizeObject gltfScene]

/-- `convertGlbToStl` (src/lib/stl-utils.ts): on load success, add the
scene, repaint every mesh white, export binary STL and resolve; on load
failure, reject with the loader's error value unchanged. The embedded
export path is total, so the `catch`/`reject` branch of the success
callback is unreachable. -/
def convertGlbToStl : LoadResult → ConvResult
  | .failure e => .rejected e
  | .success gltfScene => .resolved (parseBinarySTL (pipelineScene gltfScene))

/-- A fetch response as the API routes observe it (`ok`, `status`, and the
`arrayBuffer` body). -/
structure FetchResponse where
  ok : Bool
  status : ℕ
  body : List ℕ
deriving DecidableEq, Repr

/-- Response produced by the `convert-to-stl` route: either a JSON error
with a status code, or a binary file body with its two headers. -/
inductive RouteResponse where
  | json : String → ℕ → RouteResponse
  | file : List ℕ → String → String → RouteResponse
deriving DecidableEq, Repr

/-- `GET` of src/app/api/convert-to-stl/route.ts: missing `url` → 400;
fetch not ok → JSON error with the upstream status; otherwise return the
fetched bytes unchanged with `Content-Type: application/octet-stream` and
`Content-Disposition: attachment; filename=model.stl`. -/
def convertToStlGET (url : Option String) (resp : FetchResponse) : RouteResponse :=
  match url with
  | none => .json "Model URL is required" 400
  | some _ =>
      if resp.ok then
        .file resp.body "application/octet-stream" "attachment; filename=model.stl"
      else
        .json "Failed to download model from source" resp.status

/-- What `pollTaskStatus` does after reading a status: stop polling
(terminal statuses clear the timeout) or schedule the next poll after a
delay in milliseconds. -/
inductive PollAction where
  | stop : PollAction
  | scheduleNext : ℚ → PollAction
deriving DecidableEq, Repr

/-- The processing-branch delay of `pollTaskStatus`:
`Math.min(1000 * Math.pow(1.5, attempts), 10000)`. -/
def processingDelay (attempts : ℕ) : ℚ :=
  min (1000 * (3/2 : ℚ) ^ attempts) 10000

/-- The status dispatch of `pollTaskStatus` (src/components,
model-generator): terminal statuses stop; "processing"/"running" schedule
with the capped exponential backoff; "queued" schedules at a fixed 5000 ms;
unknown statuses also poll again after 5000 ms. -/
def pollNext (status : String) (attempts : ℕ) : PollAction :=
  if status = "completed" ∨ status = "success" ∨ status = "succeeded" then .stop
  else if status = "error" ∨ status = "failed" then .stop
  else if status = "processing" ∨ status = "running" then
    .scheduleNext (processingDelay attempts)
  else if status = "queued" then .scheduleNext 5000
  else .scheduleNext 5000

/-- A one-node scene with no mesh anywhere: what loading a glTF asset with
no mesh-bearing node yields. -/
def emptyScene : Object3D :=
  .node Mat4.identity none none []

/-- The 84-byte STL a zero-triangle export produces: zeroed header and a
zero count field. -/
def zeroTriangleStl : List ℕ :=
  List.replicate 80 0 ++ u32le 0

/-- Triangle geometry A=(0,0,0), B=(1,0,0), C=(0,1,0) with no normals and
no index. -/
def demoGeom : MeshGeometry :=
  { positions := [⟨0, 0, 0⟩, ⟨1, 0, 0⟩, ⟨0, 1, 0⟩], normals := none, index := none }

/-- A single mesh node carrying `demoGeom` under an identity transform. -/
def demoRoot : Object3D :=
  .node Mat4.identity (some demoGeom) none []

/-- The triangle the exporter should emit for `demoGeom`. -/
def demoTri : STLTri :=
  { normal := ⟨0, 0, 1⟩, va := ⟨0, 0, 0⟩, vb := ⟨1, 0, 0⟩, vc := ⟨0, 1, 0⟩ }

/-- Doubling of a vector, the effect of a uniform (2,2,2) scale. -/
def vdouble (v : Vec3) : Vec3 :=
  ⟨2 * v.x, 2 * v.y, 2 * v.z⟩

/-- The local matrix of a node scaled by (2,2,2) (`Matrix4.makeScale`). -/
def scaleTwo : Mat4 :=
  ⟨2, 0, 0, 0,
   0, 2, 0, 0,
   0, 0, 2, 0,
   0, 0, 0, 1⟩

/-- A root node (identity transform) whose only child is a mesh node whose
local transform is a uniform scale by (2,2,2). -/
def scaledScene (geom : MeshGeometry) (mat : Option Material) : Object3D :=
  .node Mat4.identity none none [.node scaleTwo (some geom) mat []]

section Lemmas

theorem Mat4.identity_mul (A : Mat4) : Mat4.identity.mul A = A := by
  cases A
  simp [Mat4.mul, Mat4.identity]

theorem Mat4.mul_identity (A : Mat4) : A.mul Mat4.identity = A := by
  cases A
  simp [Mat4.mul, Mat4.identity]

theorem applyMatrix4_identity (v : Vec3) : v.applyMatrix4 Mat4.identity = v := by
  cases v
  simp [Vec3.applyMatrix4, Mat4.identity]

theorem applyMatrix4_scaleTwo (v : Vec3) : v.applyMatrix4 scaleTwo = vdouble v := by
  cases v
  simp [Vec3.applyMatrix4, scaleTwo, vdouble]

theorem chunk3_length : ∀ l : List ℕ, (chunk3 l).length = l.length / 3
  | [] => rfl
  | [_] => by simp [chunk3]
  | [_, _] => by simp [chunk3]
  | _ :: _ :: _ :: rest => by
      simp only [chunk3, List.length_cons, chunk3_length rest]
      omega

theorem triIndices_length (g : MeshGeometry) :
    (triIndices g).length = geomTriCount g := by
  cases h : g.index with
  | none => simp [triIndices, geomTriCount, h, chunk3_length]
  | some idx => simp [triIndices, geomTriCount, h, chunk3_length]

theorem sum_map_const {α : Type} (l : List α) (c : ℕ) :
    (l.map (fun _ => c)).sum = c * l.length := by
  induction l with
  | nil => simp
  | cons x xs ih => simp [ih, Nat.mul_succ, Nat.add_comm, Nat.mul_comm]

theorem triBytes_length (t : STLTri) : (triBytes t).length = 50 := by
  simp [triBytes, f32le, u32le, u16le]

theorem entryTriangles_length (e : ExportEntry) :
    (entryTriangles e).length = geomTriCount e.geom := by
  simp [entryTriangles, triIndices_length]

theorem exporterTriangles_length (root : Object3D) :
    (exporterTriangles root).length = exporterTriangleCount root := by
  simp [exporterTriangles, exporterTriangleCount, List.length_flatten, List.map_map,
    Function.comp_def, entryTriangles_length]

theorem parseBinarySTL_length (root : Object3D) :
    (parseBinarySTL root).length = 80 + 4 + 50 * exporterTriangleCount root := by
  have hmap : (exporterTriangles root).map (List.length ∘ triBytes)
      = (exporterTriangles root).map (fun _ => 50) := by
    simp [Function.comp_def, triBytes_length]
  simp [parseBinarySTL, u32le, List.length_flatten, List.map_map, hmap, sum_map_const,
    exporterTriangles_length]
  omega

theorem parseBinarySTL_countField (root : Object3D) :
    ((parseBinarySTL root).drop 80).take 4 = u32le (exporterTriangleCount root) := by
  have h80 : (List.replicate 80 (0 : ℕ)).length = 80 := by simp
  have h4 : (u32le (exporterTriangleCount root)).length = 4 := by simp [u32le]
  simp only [parseBinarySTL, List.append_assoc]
  rw [List.drop_left' h80, List.take_left' h4]

theorem decodeU32le_u32le (n : ℕ) (h : n < 2 ^ 32) :
    decodeU32le (u32le n) = n := by
  simp only [u32le, decodeU32le]
  omega

mutual

theorem strip_normalize (g : Object3D) :
    stripMaterial (normalizeObject g) = stripMaterial g := by
  cases g with
  | node m geo mat cs =>
      simp [normalizeObject, stripMaterial, strip_normalizeList cs]

theorem strip_normalizeList (l : List Object3D) :
    stripMaterialList (normalizeList l) = stripMaterialList l := by
  cases l with
  | nil => rfl
  | cons c cs =>
      simp [normalizeList, stripMaterialList, strip_normalize c, strip_normalizeList cs]

end

mutual

theorem allNodes_normalize (g : Object3D) :
    AllNodes (fun n => n.geomOf.isSome = true → n.matOf = some canonicalMaterial)
      (normalizeObject g) := by
  cases g with
  | node m geo mat cs =>
      refine ⟨?_, allNodesList_normalize cs⟩
      cases geo <;> simp [normalizeObject, Object3D.geomOf, Object3D.matOf]

theorem allNodesList_normalize (l : List Object3D) :
    AllNodesList (fun n => n.geomOf.isSome = true → n.matOf = some canonicalMaterial)
      (normalizeList l) := by
  cases l with
  | nil => exact trivial
  | cons c cs => exact ⟨allNodes_normalize c, allNodesList_normalize cs⟩

end

mutual

theorem collect_count (w : Mat4) (g : Object3D) :
    ((collectMeshes w g).map (fun e => geomTriCount e.geom)).sum = totalTriples g := by
  cases g with
  | node m geo mat cs =>
      cases geo <;>
        simp [collectMeshes, totalTriples, collect_countList (w.mul m) cs]

theorem collect_countList (w : Mat4) (l : List Object3D) :
    ((collectMeshesList w l).map (fun e => geomTriCount e.geom)).sum
      = totalTriplesList l := by
  cases l with
  | nil => rfl
  | cons c cs =>
      simp [collectMeshesList, totalTriplesList, collect_count w c, collect_countList w cs]

end

mutual

theorem totalTriples_normalize (g : Object3D) :
    totalTriples (normalizeObject g) = totalTriples g := by
  cases g with
  | node m geo mat cs =>
      cases geo <;> simp [normalizeObject, totalTriples, totalTriplesList_normalize cs]

theorem totalTriplesList_normalize (l : List Object3D) :
    totalTriplesList (normalizeList l) = totalTriplesList l := by
  cases l with
  | nil => rfl
  | cons c cs =>
      simp [normalizeList, totalTriplesList, totalTriples_normalize c,
        totalTriplesList_normalize cs]

end

mutual

theorem hasMeshNode_normalize (g : Object3D) :
    hasMeshNode (normalizeObject g) = hasMeshNode g := by
  cases g with
  | node m geo mat cs =>
      cases geo <;> simp [normalizeObject, hasMeshNode, hasMeshNodeList_normalize cs]

theorem hasMeshNodeList_normalize (l : List Object3D) :
    hasMeshNodeList (normalizeList l) = hasMeshNodeList l := by
  cases l with
  | nil => rfl
  | cons c cs =>
      simp [normalizeList, hasMeshNodeList, hasMeshNode_normalize c,
        hasMeshNodeList_normalize cs]

end

mutual

theorem collect_no_mesh (w : Mat4) (g : Object3D) (h : hasMeshNode g = false) :
    collectMeshes w g = [] := by
  cases g with
  | node m geo mat cs =>
      simp [hasMeshNode] at h
      cases geo with
      | none => simp [collectMeshes, collect_no_meshList (w.mul m) cs h.2]
      | some geo2 => exact absurd h.1 (by simp)

theorem collect_no_meshList (w : Mat4) (l : List Object3D)
    (h : hasMeshNodeList l = false) : collectMeshesList w l = [] := by
  cases l with
  | nil => rfl
  | cons c cs =>
      simp [hasMeshNodeList] at h
      simp [collectMeshesList, collect_no_mesh w c h.1, collect_no_meshList w cs h.2]

end

end Lemmas

section Claims

/-- C1, counterexample: a scene with no mesh-bearing node does NOT make
`convertGlbToStl` fail — the promise resolves with the 84-byte
zero-triangle STL (zeroed header, count field 0); no `EmptySceneError`
path exists in the code. -/
theorem convert_emptyScene_resolves :
    convertGlbToStl (.success emptyScene) = .resolved zeroTriangleStl ∧
      zeroTriangleStl.length = 84 ∧
      decodeU32le ((zeroTriangleStl.drop 80).take 4) = 0 := by
  refine ⟨by decide, by decide, by decide⟩

/-- C1, amended: for every input scene in which no mesh-bearing node is
reachable from the root, `convertGlbToStl` resolves with the zero-triangle
84-byte STL buffer (it never fails with an `EmptySceneError`, which does
not exist in the code). -/
theorem convert_no_mesh_resolves_zeroStl (g : Object3D)
    (h : hasMeshNode g = false) :
    convertGlbToStl (.success g) = .resolved zeroTriangleStl := by
  have hn : hasMeshNode (normalizeObject g) = false := by
    rw [hasMeshNode_normalize]; exact h
  have hcollect : collectMeshes Mat4.identity (pipelineScene g) = [] := by
    simp [pipelineScene, collectMeshes, collectMeshesList,
      collect_no_mesh (Mat4.identity.mul Mat4.identity) (normalizeObject g) hn]
  simp [convertGlbToStl, parseBinarySTL, exporterTriangleCount, exporterTriangles,
    hcollect, zeroTriangleStl]

/-- C1, witness for the amended theorem: a two-node mesh-free scene
resolves with the zero-triangle STL. -/
theorem convert_no_mesh_witness :
    hasMeshNode (.node Mat4.identity none none
        [.node Mat4.identity none none []]) = false ∧
      convertGlbToStl (.success (.node Mat4.identity none none
        [.node Mat4.identity none none []])) = .resolved zeroTriangleStl :=
  ⟨by decide, convert_no_mesh_resolves_zeroStl _ (by decide)⟩

/-- C2: for every input scene with `N` total triangle index-triples across
all mesh-bearing nodes (`N` under the uint32 range the 4-byte field can
hold), the conversion resolves with an STL of exactly `80 + 4 + 50*N`
bytes whose 4-byte little-endian count field at offset 80 decodes to `N`. -/
theorem stl_layout_spec (g : Object3D) (h : totalTriples g < 2 ^ 32) :
    ∃ stl : List ℕ,
      convertGlbToStl (.success g) = .resolved stl ∧
        stl.length = 80 + 4 + 50 * totalTriples g ∧
        decodeU32le ((stl.drop 80).take 4) = totalTriples g := by
  have hcount : exporterTriangleCount (pipelineScene g) = totalTriples g := by
    have h1 : exporterTriangleCount (pipelineScene g)
        = totalTriples (pipelineScene g) :=
      collect_count Mat4.identity (pipelineScene g)
    rw [h1]
    simp [pipelineScene, totalTriples, totalTriplesList, totalTriples_normalize]
  refine ⟨parseBinarySTL (pipelineScene g), rfl, ?_, ?_⟩
  · rw [parseBinarySTL_length, hcount]
  · rw [parseBinarySTL_countField, hcount, decodeU32le_u32le _ h]

/-- C2, witness: the one-triangle demo scene satisfies the layout theorem. -/
theorem stl_layout_witness :
    totalTriples demoRoot < 2 ^ 32 ∧
      ∃ stl : List ℕ,
        convertGlbToStl (.success demoRoot) = .resolved stl ∧
          stl.length = 80 + 4 + 50 * totalTriples demoRoot ∧
          decodeU32le ((stl.drop 80).take 4) = totalTriples demoRoot :=
  ⟨by decide, stl_layout_spec demoRoot (by decide)⟩

/-- C3: the `convert-to-stl` route returns the fetched GLB bytes
byte-for-byte unchanged whenever the fetch succeeds, merely labelling the
response as an STL attachment named `model.stl`; no mesh conversion is
performed on the server. -/
theorem convertToStl_route_passthrough (u : String) (resp : FetchResponse)
    (h : resp.ok = true) :
    convertToStlGET (some u) resp =
      .file resp.body "application/octet-stream" "attachment; filename=model.stl" := by
  simp [convertToStlGET, h]

/-- C3, witness: a successful fetch of three bytes is passed through
unchanged. -/
theorem convertToStl_route_witness :
    (FetchResponse.mk true 200 [7, 8, 9]).ok = true ∧
      convertToStlGET (some "https://host/model.glb") (FetchResponse.mk true 200 [7, 8, 9]) =
        .file [7, 8, 9] "application/octet-stream" "attachment; filename=model.stl" :=
  ⟨rfl, convertToStl_route_passthrough _ _ rfl⟩

/-- C4: conversion is deterministic — the same load outcome (same GLB
bytes, hence same parsed scene) converts to byte-identical output. -/
theorem convert_deterministic (r₁ r₂ : LoadResult) (h : r₁ = r₂) :
    convertGlbToStl r₁ = convertGlbToStl r₂ := by
  rw [h]

/-- C4, witness: determinism applied at a concrete load outcome. -/
theorem convert_deterministic_witness :
    (LoadResult.success emptyScene = LoadResult.success emptyScene) ∧
      convertGlbToStl (.success emptyScene) = convertGlbToStl (.success emptyScene) :=
  ⟨rfl, convert_deterministic _ _ rfl⟩

/-- C5: after the normalization pass, every mesh-bearing node in the scene
graph carries the canonical material (white 0xffffff, roughness 0.3,
metalness 0.1, no texture map) — including nodes whose material was absent
in the source — and the canonical material carries no texture reference. -/
theorem normalize_canonical_material (g : Object3D) :
    AllNodes (fun n => n.geomOf.isSome = true → n.matOf = some canonicalMaterial)
        (normalizeObject g) ∧
      canonicalMaterial.map = none :=
  ⟨allNodes_normalize g, rfl⟩

/-- C6: the normalizer changes only materials — erasing materials from its
output gives exactly the material-erasure of its input, so every node's
local transform, geometry (positions, normals, index triples) and
parent/child hierarchy are identical before and after normalization. -/
theorem normalize_preserves_structure (g : Object3D) :
    stripMaterial (normalizeObject g) = stripMaterial g :=
  strip_normalize g

/-- C7: for a root node with one child mesh node scaled by (2,2,2), every
vertex position the exporter writes equals exactly twice the corresponding
local mesh coordinate (world transforms accumulate parent-to-child and are
applied to vertices at export). -/
theorem scaled_child_doubles_vertices (geom : MeshGeometry) (mat : Option Material) :
    exporterTriangles (pipelineScene (scaledScene geom mat)) =
      (triIndices geom).map (fun abc =>
        let pA := vdouble (geom.positions.getD abc.1 ⟨0, 0, 0⟩)
        let pB := vdouble (geom.positions.getD abc.2.1 ⟨0, 0, 0⟩)
        let pC := vdouble (geom.positions.getD abc.2.2 ⟨0, 0, 0⟩)
        { normal := Vec3.normalize ((pC.sub pB).cross (pA.sub pB)),
          va := pA, vb := pB, vc := pC }) := by
  have hworld : ((Mat4.identity.mul Mat4.identity).mul Mat4.identity).mul scaleTwo
      = scaleTwo := by
    simp [Mat4.identity_mul]
  simp only [pipelineScene, scaledScene, normalizeObject, normalizeList,
    exporterTriangles, collectMeshes, collectMeshesList, entryTriangles,
    Option.isSome, List.map_nil, List.append_nil, List.nil_append,
    List.flatten_nil, List.flatten_cons, List.map_cons, hworld]
  refine List.map_congr_left ?_
  intro abc _
  simp [writeFace, applyMatrix4_scaleTwo]

/-- C8: the exporter derives every face normal as the normalized cross
product of the triangle's edge vectors (it never consults stored vertex
normals, so in particular this holds for meshes carrying none); for the
triangle A=(0,0,0), B=(1,0,0), C=(0,1,0) with no normals the exported
normal is (0,0,1) — right-hand rule, not inverted. -/
theorem face_normal_from_cross :
    (∀ root : Object3D, ∀ t : STLTri, t ∈ exporterTriangles root →
        t.normal = Vec3.normalize ((t.vc.sub t.vb).cross (t.va.sub t.vb))) ∧
      exporterTriangles (pipelineScene demoRoot) = [demoTri] ∧
      demoTri.normal = ⟨0, 0, 1⟩ := by
  refine ⟨?_, ?_, rfl⟩
  · intro root t ht
    simp only [exporterTriangles, List.mem_flatten, List.mem_map] at ht
    obtain ⟨l, ⟨e, he, hel⟩, htl⟩ := ht
    subst hel
    simp only [entryTriangles, List.mem_map] at htl
    obtain ⟨abc, habc, hw⟩ := htl
    subst hw
    simp [writeFace]
  · norm_num [pipelineScene, normalizeObject, normalizeList, exporterTriangles,
      collectMeshes, collectMeshesList, Mat4.identity_mul, Mat4.mul_identity,
      entryTriangles, triIndices, demoRoot, demoGeom, chunk3, writeFace,
      List.getD, applyMatrix4_identity, Vec3.sub, Vec3.cross, Vec3.normalize,
      ratSqrt, sqrtLinear, List.range_succ, demoTri]

/-- C8, witness: the demo triangle is an emitted triangle and its normal is
the normalized cross product of its edge vectors. -/
theorem face_normal_witness :
    demoTri ∈ exporterTriangles (pipelineScene demoRoot) ∧
      demoTri.normal =
        Vec3.normalize ((demoTri.vc.sub demoTri.vb).cross (demoTri.va.sub demoTri.vb)) := by
  have hmem : demoTri ∈ exporterTriangles (pipelineScene demoRoot) := by
    rw [face_normal_from_cross.2.1]
    exact List.mem_singleton_self demoTri
  exact ⟨hmem, face_normal_from_cross.1 _ _ hmem⟩

/-- C9, counterexample: a timed-out fetch and a hard fetch failure are
rejected with the loader's error value passed through unchanged, and the
two rejections carry the same kind — the pipeline defines no
`FetchTimeoutError` versus `FetchFailedError` distinction at all. -/
theorem fetch_error_kind_indistinct :
    convertGlbToStl (.failure "timeout") = .rejected "timeout" ∧
      convertGlbToStl (.failure "connection refused") = .rejected "connection refused" ∧
      (convertGlbToStl (.failure "timeout")).kind
        = (convertGlbToStl (.failure "connection refused")).kind :=
  ⟨rfl, rfl, rfl⟩

/-- C9, amended: when the network load of the source asset fails,
`convertGlbToStl` rejects with the loader's error value unchanged — one
uniform rejection kind; no distinct `FetchTimeoutError`/`FetchFailedError`
classification exists in the code. -/
theorem convert_load_error_passthrough (e : String) :
    convertGlbToStl (.failure e) = .rejected e :=
  rfl

/-- C10: while the status is "processing" the next poll is scheduled after
`min(1000 * 1.5^attempts, 10000)` ms, a delay strictly increasing in the
attempt count until the 10000 ms cap; while the status is "queued" the
delay is the fixed constant 5000 ms. -/
theorem poll_backoff_spec :
    (∀ a : ℕ, pollNext "processing" a
        = .scheduleNext (min (1000 * (3/2 : ℚ) ^ a) 10000)) ∧
      (∀ a : ℕ, processingDelay a < 10000 → processingDelay a < processingDelay (a + 1)) ∧
      (∀ a : ℕ, pollNext "queued" a = .scheduleNext 5000) := by
  refine ⟨fun a => by simp [pollNext, processingDelay], fun a h => ?_,
    fun a => by simp [pollNext]⟩
  have hx : (0 : ℚ) < 1000 * (3/2) ^ a := by positivity
  have hlt : 1000 * (3/2 : ℚ) ^ a < 10000 := by
    by_contra hge
    push_neg at hge
    rw [processingDelay, min_eq_right hge] at h
    exact absurd h (lt_irrefl _)
  have h1 : processingDelay a = 1000 * (3/2 : ℚ) ^ a :=
    min_eq_left (le_of_lt hlt)
  rw [h1, processingDelay]
  refine lt_min ?_ hlt
  rw [pow_succ]
  nlinarith [hx]

/-- C10, witness: at attempt 0 the delay is below the cap and strictly
smaller than the attempt-1 delay. -/
theorem poll_backoff_witness :
    processingDelay 0 < 10000 ∧ processingDelay 0 < processingDelay 1 :=
  ⟨by norm_num [processingDelay], poll_backoff_spec.2.1 0 (by norm_num [processingDelay])⟩

end Claims

end MagicFish
